import Mathlib

/-!
Shallow embedding of the model-lifecycle registry of
`ai-core-system/app/core/model_manager.py` (class `ModelManager`), together
with the slice of `app/api/routes.py` (`generate_text`) needed for the
generate-without-model property.  Python dictionaries are embedded as
insertion-ordered association lists, the external inference library
(tokenizer / model / pipeline construction and text generation) as an
oracle of outcomes, and `time.time()` as a logical clock.
-/

namespace AICore

/-- The `device` attribute of `ModelManager`: `"cuda" if torch.cuda.is_available() else "cpu"`. -/
inductive Device
  | cpu
  | cuda
deriving DecidableEq

/-- Projection of a model-configuration dictionary onto the fields the
manager reads: `path`, `quantization`, `adapter`, and the generation
defaults `max_tokens`, `temperature`, `top_p` (numbers; the code only tests their
truthiness and passes them through, so Python floats are embedded as exact
fixed-point integers in thousandths: 0.7 is 700).  `max_memory` is the declared footprint from the config file
(in GB); `ModelManager` itself never reads it. -/
structure ModelConfig where
  path : String
  quantization : Option String
  adapter : Option String
  max_tokens : Option ℤ
  temperature : Option ℤ
  top_p : Option ℤ
  max_memory : Option ℕ
deriving DecidableEq

/-- Lookup in a Python dict embedded as an association list. -/
def dfind? {α : Type} : List (String × α) → String → Option α
  | [], _ => none
  | p :: rest, k => if p.1 = k then some p.2 else dfind? rest k

/-- Python `k in d`. -/
def dcontains {α : Type} (d : List (String × α)) (k : String) : Bool :=
  (dfind? d k).isSome

/-- Python `d[k] = v`: replace in place if the key exists, else append
(insertion order, as for Python dicts). -/
def dinsert {α : Type} : List (String × α) → String → α → List (String × α)
  | [], k, v => [(k, v)]
  | p :: rest, k, v => if p.1 = k then (k, v) :: rest else p :: dinsert rest k v

/-- Python `del d[k]`. -/
def derase {α : Type} : List (String × α) → String → List (String × α)
  | [], _ => []
  | p :: rest, k => if p.1 = k then rest else p :: derase rest k

/-- One entry of `self.loaded_models`: the pipeline/tokenizer/model triple
produced by the inference library is opaque and represented by the numeric
payload the loader oracle returned; `config` is the (dict) config stored in
the entry and `loaded_at` the clock value of `time.time()` at commit. -/
structure LoadedEntry where
  payload : ℕ
  config : ModelConfig
  loaded_at : ℕ
deriving DecidableEq

/-- The mutable attributes of `ModelManager` relevant to the registry:
`loaded_models`, `model_configs` and `device`. -/
structure Manager where
  loaded_models : List (String × LoadedEntry)
  model_configs : List (String × ModelConfig)
  device : Device
deriving DecidableEq

/-- Manager state plus instrumentation: the number of underlying loader
invocations, pipeline generation calls and teardown attempts performed so
far, and the logical clock standing for `time.time()`. -/
structure Sys where
  mgr : Manager
  loaderCalls : ℕ
  genCalls : ℕ
  teardownCalls : ℕ
  now : ℕ
deriving DecidableEq

/-- Outcome of the teardown block of `unload_model` (the `del` statements,
`gc.collect()` and `torch.cuda.empty_cache()`): it may raise before the
entry is removed from `loaded_models` (a failing `del model_data[...]`), or
after removal (failing `gc`/cache cleanup), or succeed. -/
inductive TeardownOutcome
  | ok
  | failBefore (e : String)
  | failAfter (e : String)
deriving DecidableEq

/-- Oracle for the external inference library: the outcome of the i-th
loader invocation (tokenizer + model + pipeline construction, which either
raises or yields an opaque payload), the outcome of the i-th pipeline
generation call given the merged parameters (either raises or returns the
list of outputs' generated texts), the outcome of the i-th teardown, and
the token-count function `len(tokenizer.encode(text))`. -/
structure Oracle where
  loadOutcome : ℕ → Except String ℕ
  genOutcome : ℕ → ℤ → ℤ → ℤ → Except String (List String)
  teardownOutcome : ℕ → TeardownOutcome
  encodeLen : String → ℕ

/-- Body of `ModelManager.load_model` (the contents of its `try` block),
returning the state at exit together with either the returned boolean or a
raised exception.  Mirrors the source: return `True` if already loaded;
return `False` if the name has no config; on CPU with `"4bit"`
quantization overwrite the stored config's quantization with `"none"`
(the assignment `config["quantization"] = "none"` mutates the dict held in
`self.model_configs`); then perform the loader work (one underlying loader
invocation) and on success commit the entry with `loaded_at = time.time()`. -/
def load_model_body (o : Oracle) (s : Sys) (model_name : String) :
    Sys × Except String Bool :=
  if dcontains s.mgr.loaded_models model_name then (s, .ok true)
  else
    match dfind? s.mgr.model_configs model_name with
    | none => (s, .ok false)
    | some config0 =>
      let cpuFallback : Bool :=
        config0.quantization = some "4bit" ∧ s.mgr.device = Device.cpu
      let config :=
        if cpuFallback then { config0 with quantization := some "none" } else config0
      let mgr1 : Manager :=
        { s.mgr with
          model_configs :=
            if cpuFallback then dinsert s.mgr.model_configs model_name config
            else s.mgr.model_configs }
      let s1 : Sys := { s with mgr := mgr1, loaderCalls := s.loaderCalls + 1 }
      match o.loadOutcome s.loaderCalls with
      | .error e => (s1, .error e)
      | .ok payload =>
        ({ s1 with
            mgr := { mgr1 with
              loaded_models :=
                dinsert mgr1.loaded_models model_name
                  { payload := payload, config := config, loaded_at := s.now } },
            now := s.now + 1 },
          .ok true)

/-- `ModelManager.load_model`: the body wrapped in `try/except`, every
raised exception being caught and turned into the return value `False`. -/
def load_model (o : Oracle) (s : Sys) (model_name : String) : Bool × Sys :=
  match load_model_body o s model_name with
  | (s1, .ok b) => (b, s1)
  | (s1, .error _) => (false, s1)

/-- Body of `ModelManager.unload_model`: return `True` if the model is not
loaded; otherwise run the teardown block, which may raise before or after
the entry has been deleted from `loaded_models`. -/
def unload_model_body (o : Oracle) (s : Sys) (model_name : String) :
    Sys × Except String Bool :=
  if dcontains s.mgr.loaded_models model_name = false then (s, .ok true)
  else
    let s1 : Sys := { s with teardownCalls := s.teardownCalls + 1 }
    match o.teardownOutcome s.teardownCalls with
    | .failBefore e => (s1, .error e)
    | .failAfter e =>
      ({ s1 with
          mgr := { s1.mgr with
            loaded_models := derase s1.mgr.loaded_models model_name } },
        .error e)
    | .ok =>
      ({ s1 with
          mgr := { s1.mgr with
            loaded_models := derase s1.mgr.loaded_models model_name } },
        .ok true)

/-- `ModelManager.unload_model`: the body wrapped in `try/except`, every
raised exception being caught and turned into the return value `False`. -/
def unload_model (o : Oracle) (s : Sys) (model_name : String) : Bool × Sys :=
  match unload_model_body o s model_name with
  | (s1, .ok b) => (b, s1)
  | (s1, .error _) => (false, s1)

/-- Python `x or d` on a numeric parameter: `x` may be `None` (embedded as
`none`) and `0`/`0.0` is falsy, so the right operand is taken exactly when
`x` is `None` or zero. -/
def pyOr (x : Option ℤ) (d : ℤ) : ℤ :=
  match x with
  | none => d
  | some v => if v = 0 then d else v

/-- One line of the parameter merging in `generate_response`, e.g.
`max_tokens = max_tokens or config.get("max_tokens", 512)`: `requested` is
the argument value at the call (Python substitutes the signature default
for an omitted argument before this line runs). -/
def mergeParam (requested : Option ℤ) (configVal : Option ℤ) (fallback : ℤ) : ℤ :=
  pyOr requested (configVal.getD fallback)

/-- The three merged generation parameters of `generate_response`
(`max_tokens`, `temperature`, `top_p`), with the code's hardcoded
fallbacks 512, 0.7 and 0.9 (the floats in thousandths: 700 and 900). -/
def mergedParams (config : ModelConfig) (max_tokens temperature top_p : Option ℤ) :
    ℤ × ℤ × ℤ :=
  (mergeParam max_tokens config.max_tokens 512,
   mergeParam temperature config.temperature 700,
   mergeParam top_p config.top_p 900)

/-- Substring test, embedding Python `needle in hay`. -/
def strContains (hay needle : String) : Bool :=
  (hay.splitOn needle).length > 1

/-- The `except` clause of `generate_response`: the caught exception is
re-raised with a message selected by substring tests on its lowercased
text (`"numpy" in str(e).lower()`, then `"torch"`, else generic). -/
def classifyGenError (e : String) : String :=
  if strContains e.toLower "numpy" then
    "NumPy compatibility issue: " ++ e ++ ". Please check NumPy installation."
  else if strContains e.toLower "torch" then
    "PyTorch issue: " ++ e ++ ". Please check PyTorch installation."
  else
    "Model inference failed: " ++ e

/-- The dictionary returned by a successful `generate_response`. -/
structure GenResult where
  response : String
  model : String
  processing_time : ℕ
  tokens_used : ℕ
  prompt_tokens : ℕ
  generated_tokens : ℤ
deriving DecidableEq

/-- The residency step at the top of `generate_response`: if the model is
not in `loaded_models`, call `load_model`; the boolean reports whether the
model is resident afterwards. -/
def ensureLoaded (o : Oracle) (s : Sys) (model_name : String) : Sys × Bool :=
  if dcontains s.mgr.loaded_models model_name then (s, true)
  else ((load_model o s model_name).2, (load_model o s model_name).1)

/-- Body of `ModelManager.generate_response` (the contents of its `try`
block): ensure residency (raising `Failed to load model '...'` when
`load_model` returns `False`), read the entry's stored config, merge the
generation parameters, invoke the pipeline (one generation call, which may
raise), and build the result dictionary; an empty output list yields the
empty string as generated text. -/
def generate_response_body (o : Oracle) (s : Sys) (model_name prompt : String)
    (max_tokens temperature top_p : Option ℤ) : Sys × Except String GenResult :=
  match ensureLoaded o s model_name with
  | (s1, false) => (s1, .error ("Failed to load model '" ++ model_name ++ "'"))
  | (s1, true) =>
    match dfind? s1.mgr.loaded_models model_name with
    | none => (s1, .error ("KeyError: '" ++ model_name ++ "'"))
    | some entry =>
      let ps := mergedParams entry.config max_tokens temperature top_p
      let s2 : Sys := { s1 with genCalls := s1.genCalls + 1, now := s1.now + 1 }
      match o.genOutcome s1.genCalls ps.1 ps.2.1 ps.2.2 with
      | .error e => (s2, .error e)
      | .ok outputs =>
        let generated_text := match outputs with | [] => "" | t :: _ => t
        let tokens_used := o.encodeLen (prompt ++ generated_text)
        (s2, .ok
          { response := generated_text.trim,
            model := model_name,
            processing_time := 1,
            tokens_used := tokens_used,
            prompt_tokens := o.encodeLen prompt,
            generated_tokens := (tokens_used : ℤ) - (o.encodeLen prompt : ℤ) })

/-- `ModelManager.generate_response`: the body wrapped in `try/except`;
every raised exception is re-raised with the classified message, so the
caller receives either the result dictionary or an error. -/
def generate_response (o : Oracle) (s : Sys) (model_name prompt : String)
    (max_tokens temperature top_p : Option ℤ) : Sys × Except String GenResult :=
  match generate_response_body o s model_name prompt max_tokens temperature top_p with
  | (s1, .ok r) => (s1, .ok r)
  | (s1, .error e) => (s1, .error (classifyGenError e))

/-- The parsed shape of a model-configuration file as `load_config` reads
it: the `"models"` map (already defaulted to `{}` when the key is absent)
and the `"default_model"` entry. -/
structure ConfigFile where
  models : List (String × ModelConfig)
  default_model : Option String
deriving DecidableEq

/-- The hardcoded configuration returned by `load_config` when reading or
parsing the file fails (its single model `mistral-7b-instruct`; the
string `"8GB"` of `max_memory` is recorded as 8). -/
def defaultConfigFile : ConfigFile :=
  { models :=
      [("mistral-7b-instruct",
        { path := "mistralai/Mistral-7B-Instruct-v0.2",
          quantization := some "4bit",
          adapter := none,
          max_tokens := some 512,
          temperature := some 700,
          top_p := some 900,
          max_memory := some 8 })],
    default_model := some "mistral-7b-instruct" }

/-- `ModelManager.load_config`: `parsed` is the outcome of opening and
JSON-decoding the file.  On success the manager's `model_configs` is
replaced by the file's `"models"` map and the parsed config returned; on
any failure the hardcoded default config is returned and — the point of
the fallback path — `self.model_configs` is left untouched. -/
def load_config (parsed : Except String ConfigFile) (s : Sys) : ConfigFile × Sys :=
  match parsed with
  | .ok cfg => (cfg, { s with mgr := { s.mgr with model_configs := cfg.models } })
  | .error _ => (defaultConfigFile, s)

/-- Python `a or b` on optional strings: `None` and `""` are falsy. -/
def pyOrStr (a b : Option String) : Option String :=
  match a with
  | none => b
  | some v => if v = "" then b else some v

/-- Python truthiness of an optional string. -/
def pyStrTruthy (a : Option String) : Bool :=
  match a with
  | none => false
  | some v => v ≠ ""

/-- Outcome of the `generate_text` route: an HTTP error (status code and
detail) or a successful response of the gateway. -/
inductive RouteResult (α : Type)
  | ok (r : α)
  | httpError (statusCode : ℕ) (detail : String)
deriving DecidableEq

/-- Modelled from the spec: `app/models/manager.py` is absent from the
source tree (only imported by `routes.py`/`endpoints.py`), so the manager
the routes talk to is represented by its registry state plus the
`currentModel` pointer that `get_current_model()` reads — per §3 of the
spec, "a single optional `currentModel: ModelName` used as the default
target when a caller does not specify one"; `get_current_model` is a pure
accessor. -/
structure Gateway where
  currentModel : Option String
  registry : Sys

/-- The model-resolution slice of `generate_text` in `app/api/routes.py`:
`model_name = request.model or model_manager.get_current_model()`; if the
result is falsy, raise `HTTPException(400, "No model specified and no
current model loaded")` before anything touches the loader.  The remainder
of the route (the call into the missing `models.manager.generate`) is
abstracted as the function argument `gen`. -/
def generate_text_route {α : Type} (g : Gateway) (requestModel : Option String)
    (prompt : String) (gen : String → String → Gateway → RouteResult α × Gateway) :
    RouteResult α × Gateway :=
  let model_name := pyOrStr requestModel g.currentModel
  if pyStrTruthy model_name = false then
    (.httpError 400 "No model specified and no current model loaded", g)
  else
    gen (model_name.getD "") prompt g

/-- Modelled from the spec: the code attaches no memory estimate to a
loaded handle (the spec's `memoryEstimateBytes` has no counterpart in
`ModelManager`), so the total footprint over Loaded handles is read off
the only memory-related datum available, the `max_memory` field of each
entry's stored config. -/
def totalMemoryEstimate (m : Manager) : ℕ :=
  (m.loaded_models.map (fun p => p.2.config.max_memory.getD 0)).sum

/-- Position of one thread inside `load_model` for the concurrency model:
`ready` before the residency/config checks, `loading` after the checks
with the loader invocation issued (carrying the config in use and the
invocation index), `done` with the call's boolean result. -/
inductive Phase
  | ready
  | loading (config : ModelConfig) (idx : ℕ)
  | done (result : Bool)
deriving DecidableEq

/-- Two concurrent `load_model(name)` callers sharing the manager state. -/
structure TwoLoad where
  sys : Sys
  t1 : Phase
  t2 : Phase
deriving DecidableEq

/-- One atomic step of a thread running `load_model name`.  The function
body has no lock, so the residency check and the commit of the loaded
entry are separate atomic actions with the long-running loader invocation
between them: from `ready` the thread performs the checks (and the CPU
4-bit config mutation) and issues the loader invocation; from `loading` it
takes the loader outcome and, on success, commits the entry. -/
def stepThread (o : Oracle) (name : String) (s : Sys) : Phase → Sys × Phase
  | .ready =>
    if dcontains s.mgr.loaded_models name then (s, .done true)
    else
      match dfind? s.mgr.model_configs name with
      | none => (s, .done false)
      | some config0 =>
        let cpuFallback : Bool :=
          config0.quantization = some "4bit" ∧ s.mgr.device = Device.cpu
        let config :=
          if cpuFallback then { config0 with quantization := some "none" } else config0
        let mgr1 : Manager :=
          { s.mgr with
            model_configs :=
              if cpuFallback then dinsert s.mgr.model_configs name config
              else s.mgr.model_configs }
        ({ s with mgr := mgr1, loaderCalls := s.loaderCalls + 1 },
          .loading config s.loaderCalls)
  | .loading config idx =>
    match o.loadOutcome idx with
    | .error _ => (s, .done false)
    | .ok payload =>
      ({ s with
          mgr := { s.mgr with
            loaded_models :=
              dinsert s.mgr.loaded_models name
                { payload := payload, config := config, loaded_at := s.now } },
          now := s.now + 1 },
        .done true)
  | .done r => (s, .done r)

/-- Run two concurrent `load_model name` callers under an explicit
schedule: `true` steps the first thread, `false` the second. -/
def runSched (o : Oracle) (name : String) : List Bool → TwoLoad → TwoLoad
  | [], st => st
  | b :: rest, st =>
    if b then
      let r := stepThread o name st.sys st.t1
      runSched o name rest { sys := r.1, t1 := r.2, t2 := st.t2 }
    else
      let r := stepThread o name st.sys st.t2
      runSched o name rest { sys := r.1, t1 := st.t1, t2 := r.2 }

/-- A loader oracle for concrete runs: every loader invocation succeeds
with payload 0, every generation returns one output `"hi"`, teardown
succeeds, token counts are string lengths. -/
def oOk : Oracle :=
  { loadOutcome := fun _ => .ok 0,
    genOutcome := fun _ _ _ _ => .ok ["hi"],
    teardownOutcome := fun _ => .ok,
    encodeLen := fun t => t.length }

/-- A loader oracle whose loader invocations always raise. -/
def oLoadFail : Oracle :=
  { oOk with loadOutcome := fun _ => .error "load crashed" }

/-- A config with no generation defaults and a declared footprint of 1. -/
def cfgPlain : ModelConfig :=
  { path := "p", quantization := none, adapter := none,
    max_tokens := none, temperature := none, top_p := none, max_memory := some 1 }

/-- Initial state for the concurrency run: nothing loaded, one configured
model `"m"`, CUDA device, fresh counters. -/
def s0 : Sys :=
  { mgr := { loaded_models := [], model_configs := [("m", cfgPlain)], device := Device.cuda },
    loaderCalls := 0, genCalls := 0, teardownCalls := 0, now := 0 }

/-- Initial state for the budget run: models `"m1"` and `"m2"` configured,
each declaring footprint 1, nothing loaded. -/
def s0budget : Sys :=
  { mgr := { loaded_models := [], model_configs := [("m1", cfgPlain), ("m2", cfgPlain)],
             device := Device.cuda },
    loaderCalls := 0, genCalls := 0, teardownCalls := 0, now := 0 }

/-- A CPU-device state whose configured model `"m"` requests `"4bit"`
quantization. -/
def s0cpu4bit : Sys :=
  { mgr := { loaded_models := [],
             model_configs := [("m", { cfgPlain with quantization := some "4bit" })],
             device := Device.cpu },
    loaderCalls := 0, genCalls := 0, teardownCalls := 0, now := 0 }

theorem dfind?_eq_none_of_not_contains {α : Type} {d : List (String × α)} {k : String}
    (h : dcontains d k = false) : dfind? d k = none := by
  unfold dcontains at h
  cases hd : dfind? d k with
  | none => rfl
  | some v => rw [hd] at h; simp at h

theorem dinsert_eq_append {α : Type} {d : List (String × α)} {k : String} (v : α)
    (h : dcontains d k = false) : dinsert d k v = d ++ [(k, v)] := by
  induction d with
  | nil => rfl
  | cons p rest ih =>
    unfold dcontains dfind? at h
    by_cases hpk : p.1 = k
    · rw [if_pos hpk] at h; simp at h
    · rw [if_neg hpk] at h
      unfold dinsert
      rw [if_neg hpk, List.cons_append]
      exact congrArg _ (ih h)

theorem mem_dinsert_of_mem {α : Type} {d : List (String × α)} {p : String × α}
    {k : String} (v : α) (hm : p ∈ d) (h : dcontains d k = false) :
    p ∈ dinsert d k v := by
  rw [dinsert_eq_append v h]
  exact List.mem_append_left _ hm

theorem dfind?_dinsert_self {α : Type} (d : List (String × α)) (k : String) (v : α) :
    dfind? (dinsert d k v) k = some v := by
  induction d with
  | nil => simp [dinsert, dfind?]
  | cons p rest ih =>
    by_cases hpk : p.1 = k
    · simp [dinsert, if_pos hpk, dfind?]
    · simp [dinsert, if_neg hpk, dfind?, hpk, ih]

theorem dcontains_dinsert_self {α : Type} (d : List (String × α)) (k : String) (v : α) :
    dcontains (dinsert d k v) k = true := by
  simp [dcontains, dfind?_dinsert_self]

theorem load_model_of_contains (o : Oracle) (s : Sys) (m : String)
    (h : dcontains s.mgr.loaded_models m = true) : load_model o s m = (true, s) := by
  simp [load_model, load_model_body, h]

theorem load_model_contains_of_true (o : Oracle) (s : Sys) (m : String)
    (h : (load_model o s m).1 = true) :
    dcontains (load_model o s m).2.mgr.loaded_models m = true := by
  by_cases hc : dcontains s.mgr.loaded_models m
  · rw [load_model_of_contains o s m hc]
    exact hc
  · rw [Bool.not_eq_true] at hc
    cases hf : dfind? s.mgr.model_configs m with
    | none =>
      rw [show load_model o s m = (false, s) by simp [load_model, load_model_body, hc, hf]] at h
      simp at h
    | some cfg =>
      cases ho : o.loadOutcome s.loaderCalls with
      | error e =>
        simp only [load_model, load_model_body, hc, ho, hf] at h
        simp at h
      | ok v =>
        simp only [load_model, load_model_body, hc, ho, hf]
        simp only [Bool.false_eq_true, if_false]
        exact dcontains_dinsert_self _ _ _

theorem load_model_preserves_loaded (o : Oracle) (s : Sys) (m : String)
    {p : String × LoadedEntry} (hm : p ∈ s.mgr.loaded_models) :
    p ∈ (load_model o s m).2.mgr.loaded_models := by
  by_cases hc : dcontains s.mgr.loaded_models m
  · rw [load_model_of_contains o s m hc]; exact hm
  · rw [Bool.not_eq_true] at hc
    cases hf : dfind? s.mgr.model_configs m with
    | none => simpa [load_model, load_model_body, hc, hf] using hm
    | some cfg =>
      cases ho : o.loadOutcome s.loaderCalls with
      | error e => simpa [load_model, load_model_body, hc, hf, ho] using hm
      | ok v =>
        simp only [load_model, load_model_body, hc, hf, ho, Bool.false_eq_true, if_false]
        exact mem_dinsert_of_mem _ hm hc

/-- Claim C1, counterexample.  The claim states that N concurrent
`load(m)` calls while a load of m is in flight perform exactly one
underlying Loader invocation.  `load_model` has no lock and no Loading
marker, so in the interleaving where both callers pass the residency
check before either commits, each caller performs its own loader
invocation: both callers complete (with `True`), yet two loader
invocations occur. -/
theorem single_flight_counterexample :
    (runSched oOk "m" [true, false, true, false]
        { sys := s0, t1 := Phase.ready, t2 := Phase.ready }).sys.loaderCalls = 2 ∧
    (runSched oOk "m" [true, false, true, false]
        { sys := s0, t1 := Phase.ready, t2 := Phase.ready }).t1 = Phase.done true ∧
    (runSched oOk "m" [true, false, true, false]
        { sys := s0, t1 := Phase.ready, t2 := Phase.ready }).t2 = Phase.done true := by
  decide

/-- Claim C1, amended: `load_model` provides no single-flight guarantee.
Two overlapping `load_model("m")` calls (both residency checks before
either commit) each invoke the underlying loader — two invocations —
though both callers return `True` and `"m"` ends up loaded; only when the
second call starts after the first has committed does it join the existing
entry and skip the loader (one invocation). -/
theorem load_model_no_single_flight :
    (runSched oOk "m" [true, false, true, false]
        { sys := s0, t1 := Phase.ready, t2 := Phase.ready }).sys.loaderCalls = 2 ∧
    (runSched oOk "m" [true, false, true, false]
        { sys := s0, t1 := Phase.ready, t2 := Phase.ready }).t1 = Phase.done true ∧
    (runSched oOk "m" [true, false, true, false]
        { sys := s0, t1 := Phase.ready, t2 := Phase.ready }).t2 = Phase.done true ∧
    dcontains (runSched oOk "m" [true, false, true, false]
        { sys := s0, t1 := Phase.ready, t2 := Phase.ready }).sys.mgr.loaded_models "m"
      = true ∧
    (runSched oOk "m" [true, true, false, false]
        { sys := s0, t1 := Phase.ready, t2 := Phase.ready }).sys.loaderCalls = 1 ∧
    (runSched oOk "m" [true, true, false, false]
        { sys := s0, t1 := Phase.ready, t2 := Phase.ready }).t1 = Phase.done true ∧
    (runSched oOk "m" [true, true, false, false]
        { sys := s0, t1 := Phase.ready, t2 := Phase.ready }).t2 = Phase.done true := by
  decide

/-- Claim C2, counterexample.  The claim states that after every
successful load the sum of memory estimates over loaded handles does not
exceed the configured budget (unless no evictable handle remains).  With
budget 1 and models `"m1"`, `"m2"` each declaring footprint 1, the second
load succeeds and leaves the total at 2 > 1, while `"m1"` — loaded, not
the model just loaded, and not any current model — remains resident:
`load_model` runs no eviction pass and reports no warning. -/
theorem memory_budget_counterexample :
    (load_model oOk (load_model oOk s0budget "m1").2 "m2").1 = true ∧
    totalMemoryEstimate (load_model oOk (load_model oOk s0budget "m1").2 "m2").2.mgr
      = 2 ∧
    1 < totalMemoryEstimate
        (load_model oOk (load_model oOk s0budget "m1").2 "m2").2.mgr ∧
    dcontains (load_model oOk (load_model oOk s0budget "m1").2 "m2").2.mgr.loaded_models
        "m1" = true := by
  decide

/-- Claim C2, amended: `load_model` maintains no memory budget and evicts
nothing — every entry of `loaded_models` survives any `load_model` call,
so the total footprint over loaded handles grows without bound and no
`MemoryBudgetExceeded` condition is ever reported (the call returns a
plain boolean). -/
theorem load_model_never_evicts (o : Oracle) (s : Sys) (m : String)
    {p : String × LoadedEntry} (hm : p ∈ s.mgr.loaded_models) :
    p ∈ (load_model o s m).2.mgr.loaded_models :=
  load_model_preserves_loaded o s m hm

/-- Witness for `load_model_never_evicts`: the entry committed for `"m1"`
survives the subsequent load of `"m2"`. -/
theorem load_model_never_evicts_witness :
    ("m1", { payload := 0, config := cfgPlain, loaded_at := 0 : LoadedEntry })
        ∈ (load_model oOk s0budget "m1").2.mgr.loaded_models ∧
    ("m1", { payload := 0, config := cfgPlain, loaded_at := 0 : LoadedEntry })
        ∈ (load_model oOk (load_model oOk s0budget "m1").2 "m2").2.mgr.loaded_models :=
  ⟨by decide, load_model_never_evicts oOk (load_model oOk s0budget "m1").2 "m2" (by decide)⟩

/-- Claim C3: once `load_model` has succeeded for a name, a second
`load_model` of the same name returns `True` immediately with the whole
state unchanged — no additional loader invocation (`loaderCalls` is part
of the unchanged state) and the registry entry, `loaded_at` included,
exactly as the first call left it. -/
theorem load_model_idempotent (o o2 : Oracle) (s : Sys) (m : String)
    (h : (load_model o s m).1 = true) :
    load_model o2 (load_model o s m).2 m = (true, (load_model o s m).2) :=
  load_model_of_contains o2 _ m (load_model_contains_of_true o s m h)

/-- Witness for `load_model_idempotent`: a successful load of `"m"`
followed by a reload, under any second oracle (here one whose loader
always raises — it is never consulted). -/
theorem load_model_idempotent_witness :
    (load_model oOk s0 "m").1 = true ∧
    load_model oLoadFail (load_model oOk s0 "m").2 "m" = (true, (load_model oOk s0 "m").2) :=
  ⟨by decide, load_model_idempotent oOk oLoadFail s0 "m" (by decide)⟩

/-- Claim C4, counterexample.  The claim states that a failed load leaves
the registry state unchanged.  On a CPU device with a config requesting
`"4bit"` quantization, `load_model` mutates the stored config
(`config["quantization"] = "none"` aliases the dict in
`self.model_configs`) before invoking the loader, so when the loader then
raises, the call returns `False` with `loaded_models` untouched but
`model_configs` changed. -/
theorem failed_load_mutates_configs :
    (load_model oLoadFail s0cpu4bit "m").1 = false ∧
    (load_model oLoadFail s0cpu4bit "m").2.mgr.loaded_models = [] ∧
    (load_model oLoadFail s0cpu4bit "m").2.mgr.model_configs
      ≠ s0cpu4bit.mgr.model_configs ∧
    dfind? (load_model oLoadFail s0cpu4bit "m").2.mgr.model_configs "m"
      = some { cfgPlain with quantization := some "none" } := by
  decide

/-- Claim C4, amended: when the underlying loader raises during
`load_model(m)` for a configured, not-yet-loaded m, the call returns
`False` and the loaded-model map is exactly as before — m is neither
loaded nor marked loading — though the stored config for m may have been
mutated (CPU `"4bit"` fallback), so the full registry state is not always
unchanged. -/
theorem failed_load_leaves_no_loaded_residue (o : Oracle) (s : Sys) (m : String)
    (cfg : ModelConfig) (e : String)
    (hnot : dcontains s.mgr.loaded_models m = false)
    (hcfg : dfind? s.mgr.model_configs m = some cfg)
    (hfail : o.loadOutcome s.loaderCalls = .error e) :
    (load_model o s m).1 = false ∧
    (load_model o s m).2.mgr.loaded_models = s.mgr.loaded_models ∧
    dcontains (load_model o s m).2.mgr.loaded_models m = false := by
  refine ⟨?_, ?_, ?_⟩ <;>
    simp [load_model, load_model_body, hnot, hcfg, hfail]

/-- Witness for `failed_load_leaves_no_loaded_residue`: a loader that
always raises, against the state whose only config is `"m"`. -/
theorem failed_load_leaves_no_loaded_residue_witness :
    (dcontains s0.mgr.loaded_models "m" = false ∧
      dfind? s0.mgr.model_configs "m" = some cfgPlain ∧
      oLoadFail.loadOutcome s0.loaderCalls = .error "load crashed") ∧
    ((load_model oLoadFail s0 "m").1 = false ∧
      (load_model oLoadFail s0 "m").2.mgr.loaded_models = s0.mgr.loaded_models ∧
      dcontains (load_model oLoadFail s0 "m").2.mgr.loaded_models "m" = false) :=
  ⟨⟨by decide, by decide, rfl⟩,
    failed_load_leaves_no_loaded_residue oLoadFail s0 "m" cfgPlain "load crashed"
      (by decide) (by decide) rfl⟩

/-- Claim C5: every failure inside `generate_response` reaches the caller
as a raised error, never as a success carrying an empty string.  First
clause: if the model is not resident and `load_model` fails, the call
raises (the classified `Failed to load model` message) — it does not
return a result.  Second clause: if the model is resident but the pipeline
invocation raises, the call re-raises the classified error.  In both
cases the outcome is `.error`, so no failure is swallowed into an
`.ok` result with response `""`. -/
theorem generate_response_surfaces_failures (o : Oracle) (s : Sys) (m p : String)
    (mt t tp : Option ℤ) :
    (dcontains s.mgr.loaded_models m = false → (load_model o s m).1 = false →
      (generate_response o s m p mt t tp).2 =
        .error (classifyGenError ("Failed to load model '" ++ m ++ "'"))) ∧
    (∀ s1 entry e, ensureLoaded o s m = (s1, true) →
      dfind? s1.mgr.loaded_models m = some entry →
      o.genOutcome s1.genCalls (mergedParams entry.config mt t tp).1
          (mergedParams entry.config mt t tp).2.1
          (mergedParams entry.config mt t tp).2.2 = .error e →
      (generate_response o s m p mt t tp).2 = .error (classifyGenError e)) := by
  constructor
  · intro hnot hfail
    rcases hl : load_model o s m with ⟨b, s1⟩
    rw [hl] at hfail
    simp at hfail
    simp [generate_response, generate_response_body, ensureLoaded, hnot, hl, hfail]
  · intro s1 entry e hens hfind hgen
    simp [generate_response, generate_response_body, hens, hfind, mergedParams] at hgen ⊢
    simp [hgen]

/-- Witness for `generate_response_surfaces_failures`: with a loader that
always raises and nothing loaded, `generate_response` returns the
classified load-failure error. -/
theorem generate_response_surfaces_failures_witness :
    (dcontains s0.mgr.loaded_models "m" = false ∧
      (load_model oLoadFail s0 "m").1 = false) ∧
    (generate_response oLoadFail s0 "m" "x" (some 512) (some 700) (some 900)).2 =
      .error (classifyGenError ("Failed to load model '" ++ "m" ++ "'")) :=
  ⟨⟨by decide, by decide⟩,
    (generate_response_surfaces_failures oLoadFail s0 "m" "x"
        (some 512) (some 700) (some 900)).1 (by decide) (by decide)⟩

/-- Claim C6: `generate_text` in `app/api/routes.py` with no model in the
request and no current model rejects the request with HTTP 400 (`No model
specified and no current model loaded`) before anything reaches the
gateway: whatever the gateway's generate behaviour `gen`, it is never
invoked, and the gateway (registry state and loader-invocation count
included) is returned unchanged. -/
theorem generate_without_model_rejected {α : Type} (g : Gateway) (p : String)
    (gen : String → String → Gateway → RouteResult α × Gateway)
    (h : g.currentModel = none) :
    generate_text_route g none p gen =
      (.httpError 400 "No model specified and no current model loaded", g) := by
  simp [generate_text_route, pyOrStr, pyStrTruthy, h]

/-- Witness for `generate_without_model_rejected`: the empty gateway over
`s0`, with a gateway generate function that would report success if it
were ever called. -/
theorem generate_without_model_rejected_witness :
    ({ currentModel := none, registry := s0 } : Gateway).currentModel = none ∧
    generate_text_route { currentModel := none, registry := s0 } none "x"
        (fun _ _ g => (RouteResult.ok 0, g)) =
      (.httpError 400 "No model specified and no current model loaded",
        { currentModel := none, registry := s0 }) :=
  ⟨rfl, generate_without_model_rejected { currentModel := none, registry := s0 } "x"
    (fun _ _ g => (RouteResult.ok 0, g)) rfl⟩

/-- Claim C7, counterexample.  The claim states that parameters the
request leaves unspecified take the model config's defaults and that
request-supplied values override the config field-by-field.  Both fail:
a call omitting `max_tokens` reaches the merge with the signature default
512 (truthy), so a config default of 100 is ignored and 512 is used; and
an explicitly supplied `temperature` of 0.0 is falsy under `or`, so the
config default (0.5, i.e. 500) silently replaces the requested value. -/
theorem parameter_merging_counterexample :
    (mergedParams { cfgPlain with max_tokens := some 100 } (some 512) none none).1
      = 512 ∧
    ((100 : ℤ) = 512 → False) ∧
    (mergedParams { cfgPlain with temperature := some 500 } (some 512) (some 0) none).2.1
      = 500 ∧
    ((500 : ℤ) = 0 → False) := by
  decide

/-- Claim C7, amended: the merge in `generate_response` is Python `or`
against `config.get(field, fallback)` — a request parameter that arrives
non-`None` and nonzero is used as given (overriding the config), while a
parameter arriving as `None` or 0 falls back to the config default (or
the hardcoded fallback when the config lacks the field).  A parameter the
request omits arrives as the hardcoded signature default (512, 0.7, 0.9),
which is truthy and therefore overrides the config default rather than
falling back to it. -/
theorem mergeParam_characterization (r c : Option ℤ) (f : ℤ) :
    (∀ x, r = some x → (x = 0 → False) → mergeParam r c f = x) ∧
    (r = none ∨ r = some 0 → mergeParam r c f = c.getD f) := by
  constructor
  · intro x hr hx
    simp only [mergeParam, pyOr, hr]
    rw [if_neg hx]
  · intro hr
    rcases hr with hr | hr <;> simp [mergeParam, pyOr, hr]

/-- Witness for `mergeParam_characterization`: a truthy requested value
512 wins over a config default 100; a requested 0 loses to it. -/
theorem mergeParam_characterization_witness :
    ((some 512 : Option ℤ) = some 512 ∧ ((512 : ℤ) = 0 → False) ∧
      mergeParam (some 512) (some 100) 512 = 512) ∧
    ((some 0 : Option ℤ) = none ∨ (some 0 : Option ℤ) = some 0) ∧
    mergeParam (some 0) (some 100) 512 = (some (100 : ℤ)).getD 512 :=
  ⟨⟨rfl, by decide,
      (mergeParam_characterization (some 512) (some 100) 512).1 512 rfl (by decide)⟩,
    Or.inr rfl,
    (mergeParam_characterization (some 0) (some 100) 512).2 (Or.inr rfl)⟩

theorem load_model_configs_disjunction (o : Oracle) (s : Sys) (m : String) :
    (load_model o s m).2.mgr.model_configs = s.mgr.model_configs ∨
    (s.mgr.device = Device.cpu ∧ ∃ cfg, dfind? s.mgr.model_configs m = some cfg ∧
      cfg.quantization = some "4bit" ∧
      (load_model o s m).2.mgr.model_configs =
        dinsert s.mgr.model_configs m { cfg with quantization := some "none" }) := by
  by_cases hc : dcontains s.mgr.loaded_models m
  · left; rw [load_model_of_contains o s m hc]
  · rw [Bool.not_eq_true] at hc
    cases hf : dfind? s.mgr.model_configs m with
    | none => left; simp [load_model, load_model_body, hc, hf]
    | some cfg =>
      by_cases hq : cfg.quantization = some "4bit" ∧ s.mgr.device = Device.cpu
      · right
        refine ⟨hq.2, cfg, hf ▸ rfl, hq.1, ?_⟩
        cases ho : o.loadOutcome s.loaderCalls with
        | error e => simp [load_model, load_model_body, hc, hf, ho, hq]
        | ok v => simp [load_model, load_model_body, hc, hf, ho, hq]
      · left
        cases ho : o.loadOutcome s.loaderCalls with
        | error e => simp [load_model, load_model_body, hc, hf, ho, hq]
        | ok v => simp [load_model, load_model_body, hc, hf, ho, hq]

theorem generate_response_configs (o : Oracle) (s : Sys) (m p : String)
    (mt t tp : Option ℤ) :
    (generate_response o s m p mt t tp).1.mgr.model_configs =
      (ensureLoaded o s m).1.mgr.model_configs := by
  rcases he : ensureLoaded o s m with ⟨s1, b⟩
  cases b with
  | false => simp [generate_response, generate_response_body, he]
  | true =>
    cases hfind : dfind? s1.mgr.loaded_models m with
    | none => simp [generate_response, generate_response_body, he, hfind]
    | some entry =>
      cases hg : o.genOutcome s1.genCalls (mergedParams entry.config mt t tp).1
          (mergedParams entry.config mt t tp).2.1
          (mergedParams entry.config mt t tp).2.2 with
      | error e =>
        simp [generate_response, generate_response_body, he, hfind, mergedParams] at hg ⊢
        simp [hg]
      | ok outs =>
        simp [generate_response, generate_response_body, he, hfind, mergedParams] at hg ⊢
        simp [hg]

/-- Claim C8, counterexample.  The claim states the stored ModelConfig is
never mutated by any registry operation.  On a CPU device,
`load_model("m")` against a config requesting `"4bit"` quantization
rewrites the stored config's quantization to `"none"` (the local `config`
aliases the dict held in `self.model_configs`): after a successful load
the configuration map holds a different config than before. -/
theorem config_mutation_counterexample :
    (load_model oOk s0cpu4bit "m").1 = true ∧
    dfind? s0cpu4bit.mgr.model_configs "m"
      = some { cfgPlain with quantization := some "4bit" } ∧
    dfind? (load_model oOk s0cpu4bit "m").2.mgr.model_configs "m"
      = some { cfgPlain with quantization := some "none" } := by
  decide

/-- Claim C8, amended: registry operations leave the stored ModelConfigs
unchanged with a single exception — `load_model` (directly, or reached
through `generate_response`'s auto-load) on a CPU device against a config
whose quantization is `"4bit"` rewrites that config's quantization to
`"none"` in the configuration map; `unload_model` never touches the
configuration map. -/
theorem model_configs_immutability_characterization (o : Oracle) (s : Sys) (m : String) :
    ((load_model o s m).2.mgr.model_configs = s.mgr.model_configs ∨
      (s.mgr.device = Device.cpu ∧ ∃ cfg, dfind? s.mgr.model_configs m = some cfg ∧
        cfg.quantization = some "4bit" ∧
        (load_model o s m).2.mgr.model_configs =
          dinsert s.mgr.model_configs m { cfg with quantization := some "none" })) ∧
    (unload_model o s m).2.mgr.model_configs = s.mgr.model_configs ∧
    (∀ p mt t tp,
      (generate_response o s m p mt t tp).1.mgr.model_configs = s.mgr.model_configs ∨
      (s.mgr.device = Device.cpu ∧ ∃ cfg, dfind? s.mgr.model_configs m = some cfg ∧
        cfg.quantization = some "4bit" ∧
        (generate_response o s m p mt t tp).1.mgr.model_configs =
          dinsert s.mgr.model_configs m { cfg with quantization := some "none" })) := by
  refine ⟨load_model_configs_disjunction o s m, ?_, ?_⟩
  · by_cases hc : dcontains s.mgr.loaded_models m
    · cases ho : o.teardownOutcome s.teardownCalls with
      | ok => simp [unload_model, unload_model_body, hc, ho]
      | failBefore e => simp [unload_model, unload_model_body, hc, ho]
      | failAfter e => simp [unload_model, unload_model_body, hc, ho]
    · rw [Bool.not_eq_true] at hc
      simp [unload_model, unload_model_body, hc]
  · intro p mt t tp
    rw [generate_response_configs]
    by_cases hc : dcontains s.mgr.loaded_models m
    · left; simp [ensureLoaded, hc]
    · rw [Bool.not_eq_true] at hc
      have h1 : (ensureLoaded o s m).1 = (load_model o s m).2 := by
        simp [ensureLoaded, hc]
      rw [h1]
      exact load_model_configs_disjunction o s m

/-- Claim C9: `load_model` and `unload_model` are total boolean
interfaces.  First two clauses: every exception raised inside the body is
caught and reported as the return value `False` (with the state as the
body left it).  Last two clauses: the boolean result is exactly success —
`load_model` returns `True` iff the model was already loaded or it is
configured and the loader invocation succeeded, and `unload_model`
returns `True` iff the model was not loaded (no-op) or the teardown
succeeded. -/
theorem boolean_interface_total (o : Oracle) (s : Sys) (m : String) :
    (∀ s1 e, load_model_body o s m = (s1, .error e) → load_model o s m = (false, s1)) ∧
    (∀ s1 e, unload_model_body o s m = (s1, .error e) →
      unload_model o s m = (false, s1)) ∧
    ((load_model o s m).1 = true ↔
      (dcontains s.mgr.loaded_models m = true ∨
        ∃ cfg, dfind? s.mgr.model_configs m = some cfg ∧
          ∃ v, o.loadOutcome s.loaderCalls = .ok v)) ∧
    ((unload_model o s m).1 = true ↔
      (dcontains s.mgr.loaded_models m = false ∨
        o.teardownOutcome s.teardownCalls = TeardownOutcome.ok)) := by
  refine ⟨?_, ?_, ?_, ?_⟩
  · intro s1 e h; simp [load_model, h]
  · intro s1 e h; simp [unload_model, h]
  · by_cases hc : dcontains s.mgr.loaded_models m
    · simp [load_model_of_contains o s m hc, hc]
    · rw [Bool.not_eq_true] at hc
      cases hf : dfind? s.mgr.model_configs m with
      | none => simp [load_model, load_model_body, hc, hf]
      | some cfg =>
        cases ho : o.loadOutcome s.loaderCalls with
        | error e => simp [load_model, load_model_body, hc, hf, ho]
        | ok v => simp [load_model, load_model_body, hc, hf, ho]
  · by_cases hc : dcontains s.mgr.loaded_models m
    · cases ho : o.teardownOutcome s.teardownCalls with
      | ok => simp [unload_model, unload_model_body, hc, ho]
      | failBefore e => simp [unload_model, unload_model_body, hc, ho]
      | failAfter e => simp [unload_model, unload_model_body, hc, ho]
    · rw [Bool.not_eq_true] at hc
      simp [unload_model, unload_model_body, hc]

/-- Witness for `boolean_interface_total`: a loader that raises makes the
body exit with an error, and `load_model` reports it as `False` with the
state (one loader invocation consumed) the body left. -/
theorem boolean_interface_total_witness :
    load_model_body oLoadFail s0 "m"
      = ({ s0 with loaderCalls := 1 }, .error "load crashed") ∧
    load_model oLoadFail s0 "m" = (false, { s0 with loaderCalls := 1 }) :=
  ⟨rfl, (boolean_interface_total oLoadFail s0 "m").1 _ _ rfl⟩

/-- Claim C10: when reading or parsing the config file fails,
`load_config` returns the hardcoded default configuration — which does
contain `mistral-7b-instruct` — but leaves `model_configs` untouched, so
a subsequent `load_model("mistral-7b-instruct")` still returns `False`
(the name is absent from the registry's configuration map) without any
loader invocation (the returned state is unchanged). -/
theorem load_config_failure_not_registered (o : Oracle) (s : Sys) (e : String)
    (h1 : dcontains s.mgr.loaded_models "mistral-7b-instruct" = false)
    (h2 : dcontains s.mgr.model_configs "mistral-7b-instruct" = false) :
    load_config (.error e) s = (defaultConfigFile, s) ∧
    dcontains defaultConfigFile.models "mistral-7b-instruct" = true ∧
    load_model o (load_config (.error e) s).2 "mistral-7b-instruct"
      = (false, (load_config (.error e) s).2) := by
  refine ⟨rfl, by decide, ?_⟩
  have h2n := dfind?_eq_none_of_not_contains h2
  simp [load_config, load_model, load_model_body, h1, h2n]

/-- Witness for `load_config_failure_not_registered`: a failed config
read against the state whose only configured model is `"m"`. -/
theorem load_config_failure_not_registered_witness :
    (dcontains s0.mgr.loaded_models "mistral-7b-instruct" = false ∧
      dcontains s0.mgr.model_configs "mistral-7b-instruct" = false) ∧
    (load_config (.error "file not found") s0 = (defaultConfigFile, s0) ∧
      dcontains defaultConfigFile.models "mistral-7b-instruct" = true ∧
      load_model oOk (load_config (.error "file not found") s0).2 "mistral-7b-instruct"
        = (false, (load_config (.error "file not found") s0).2)) :=
  ⟨⟨by decide, by decide⟩,
    load_config_failure_not_registered oOk s0 "file not found" (by decide) (by decide)⟩

end AICore
